import Mathlib

/-!
Shallow embedding of the gpd event / continuation library
(`event.hpp`, `switch.hpp`, `shared_future.hpp`), waitfree variant
(`GPD_EVENT_IMPL == GPD_EVENT_IMPL_WAITFREE`).

The event stores its whole state in one atomic pointer word
(`std::atomic<waiter*> state`):
  * `nullptr`         encodes the Empty state (`empty = 0`),
  * `&noop_waiter`    is the distinguished Signaled sentinel
                      (`signaled = &noop_waiter`),
  * any other value   is a registered waiter pointer (Waited state).
We model pointer words as natural numbers: `0` is null, `1` is the
address of the global `noop_waiter`, `2` the address of the global
`delete_waiter`, and `n + 3` the address of the n-th external waiter
(e.g. a countdown latch).  Sequential (interference-free) semantics of
the atomic operations are used for the per-operation claims; producer
interference between the phases of `wait_any_adl` is modelled
explicitly by a list of flags.
-/

namespace gpd

/-- Pointer word, as stored in the event's atomic state cell. -/
abbrev Ptr := Nat

/-- Global waiter objects of the library and external (user) waiters.
`noop` models the global `noop_waiter` (`noop_waiter_t`), `delete`
models the global `delete_waiter` (`delete_waiter_t`), `ext n` an
external waiter object such as a countdown latch. -/
inductive Waiter where
  | noop
  | delete
  | ext (n : Nat)
deriving DecidableEq, Repr

/-- Address of the global `noop_waiter` object. -/
def noopAddr : Ptr := 1

/-- Address of the global `delete_waiter` object. -/
def deleteAddr : Ptr := 2

/-- The waiter object living at a given non-null address. -/
def waiterAt : Ptr → Option Waiter
  | 0 => none
  | 1 => some Waiter.noop
  | 2 => some Waiter.delete
  | n + 3 => some (Waiter.ext n)

/-- Behaviour of a waiter's `signal(event_ptr p)` callback on the owned
event: `some true` when the callback destroys (frees) the event,
`some false` when it releases it without destroying it, `none` when
the behaviour is caller-defined (external waiters).
`delete_waiter_t::signal` lets the `event_ptr` destructor delete the
event; `noop_waiter_t::signal` calls `p.release()`, giving up
ownership without running the destructor. -/
def waiterDestroys : Waiter → Option Bool
  | Waiter.noop => some false
  | Waiter.delete => some true
  | Waiter.ext _ => none

namespace event

/-- The `empty` sentinel of `event`: the null pointer. -/
def empty : Ptr := 0

/-- The `signaled` sentinel of `event`: the address of the global
`noop_waiter` (`static constexpr waiter* signaled = &noop_waiter`). -/
def signaled : Ptr := noopAddr

/-- An event state word encodes the Waited state exactly when it is
neither of the two sentinels ("waited is any value non empty non
signaled"). -/
def isWaited (s : Ptr) : Prop := s ≠ empty ∧ s ≠ signaled

instance (s : Ptr) : Decidable (isWaited s) := by
  unfold isWaited; infer_instance

/-- Sequential semantics of `state.compare_exchange_strong(expected,
desired)` on a cell currently holding `s`: on success the cell holds
`desired`, on failure it is unchanged; the returned Bool is the
success flag. -/
def cas (s expected desired : Ptr) : Bool × Ptr :=
  if s = expected then (true, desired) else (false, s)

/-- Result of an event operation that may dispatch waiter callbacks:
the new state word and the list of waiter addresses invoked, in order.
Each invoked waiter receives `event_ptr(this)`, i.e. ownership of the
event transfers into the callback. -/
structure effect where
  newState : Ptr
  invoked : List Ptr
deriving DecidableEq, Repr

/-- `event::signal`: `auto w = state.exchange(signaled); if (w)
w->signal(event_ptr(this));` — exchange the state word for the
Signaled sentinel and, when the old word was non-null, invoke the
waiter living at that address with ownership of the event. -/
def signal (s : Ptr) : effect :=
  let w := s
  { newState := signaled, invoked := if w = 0 then [] else [w] }

/-- `event::try_wait(waiter* w)`: `auto old_w = get_waiter(); return
old_w != signaled && state.compare_exchange_strong(old_w, w);` —
returns the success flag and the resulting state word. -/
def try_wait (w : Ptr) (s : Ptr) : Bool × Ptr :=
  let old_w := s
  if old_w ≠ signaled then cas s old_w w else (false, s)

/-- `event::wait(waiter* w)`: `if (!try_wait(w))
w->signal(event_ptr(this));` — register, or deliver synchronously when
the event was already signaled. -/
def wait (w : Ptr) (s : Ptr) : effect :=
  let t := try_wait w s
  if t.1 then { newState := t.2, invoked := [] }
  else { newState := t.2, invoked := [w] }

/-- `event::dismiss_wait(waiter*)`: `auto w = get_waiter(); return
w == 0 || (w != signaled && state.compare_exchange_strong(w, empty));`
— the waiter argument is unused by the implementation. -/
def dismiss_wait (_w : Ptr) (s : Ptr) : Bool × Ptr :=
  let w := s
  if w = 0 then (true, s)
  else if w ≠ signaled then cas s w empty
  else (false, s)

/-- A range of event pointers: `none` models a null entry
(`get_event(*i)` returning null), `some s` an event whose state word
is `s`. -/
abbrev Range := List (Option Ptr)

/-- `event::wait_many(waiter* w, Iter begin, Iter end)`: for every
non-null pointer in the range call `try_wait(w)`; return the pair
(signaled count, waited count) together with the updated states. -/
def wait_many (w : Ptr) : Range → (Nat × Nat) × Range
  | [] => ((0, 0), [])
  | none :: rest =>
    let r := wait_many w rest
    (r.1, none :: r.2)
  | some s :: rest =>
    let t := try_wait w s
    let r := wait_many w rest
    ((if t.1 then r.1.1 else r.1.1 + 1, if t.1 then r.1.2 + 1 else r.1.2),
     some t.2 :: r.2)

/-- `event::dismiss_wait_many(waiter* w, Iter begin, Iter end)`: for
every non-null pointer in the range call `dismiss_wait(w)`; return
the number of successful dismissals together with the updated
states. -/
def dismiss_wait_many (w : Ptr) : Range → Nat × Range
  | [] => (0, [])
  | none :: rest =>
    let r := dismiss_wait_many w rest
    (r.1, none :: r.2)
  | some s :: rest =>
    let t := dismiss_wait w s
    let r := dismiss_wait_many w rest
    ((if t.1 then 1 else 0) + r.1, some t.2 :: r.2)

end event

/-- Operations performed on the countdown latch by `wait_any_adl`:
`reset` models `latch.reset()`; `wait n` models `latch.wait(n)`, a
blocking call consuming `n` latch signals (`latch.wait()` is
`wait 1`). -/
inductive LatchOp where
  | reset
  | wait (target : Nat)
deriving DecidableEq, Repr

/-- Total number of latch signals consumed by a trace of latch
operations. -/
def latchConsumed : List LatchOp → Nat
  | [] => 0
  | LatchOp.reset :: rest => latchConsumed rest
  | LatchOp.wait n :: rest => n + latchConsumed rest

/-- Producer interference on a range of events between two consumer
phases: entry `i` of the flag list is true when the producer of event
`i` calls `signal` on it in between.  Null entries are untouched; a
missing flag means no interference. -/
def interfere : List Bool → event.Range → event.Range
  | _, [] => []
  | [], es => es
  | f :: fs, e :: es =>
    (match e with
     | none => none
     | some s => some (if f then (event.signal s).newState else s)) :: interfere fs es

/-- Result of `wait_any_adl`: the trace of latch operations it issued
and the final event states. -/
structure WaitAnyResult where
  trace : List LatchOp
  events : event.Range
deriving DecidableEq, Repr

/-- `wait_any_adl(latch, events)` (with producer interference between
the registration pass and the dismissal pass made explicit):
`latch.reset(); tie(signaled, waited) = wait_many(&latch, ...);
if (signaled == 0) latch.wait();
dismissed = dismiss_wait_many(&latch, ...);
pending = waited - dismissed; if (signaled == 0) pending -= 1;
if (pending) latch.wait(pending);` -/
def wait_any_adl (latch : Ptr) (events : event.Range) (fs : List Bool) :
    WaitAnyResult :=
  let r := event.wait_many latch events
  let signaled := r.1.1
  let waited := r.1.2
  let blockOps := if signaled = 0 then [LatchOp.wait 1] else []
  let d := event.dismiss_wait_many latch (interfere fs r.2)
  let dismissed := d.1
  let pending := waited - dismissed - (if signaled = 0 then 1 else 0)
  let drainOps := if pending ≠ 0 then [LatchOp.wait pending] else []
  { trace := LatchOp.reset :: (blockOps ++ drainOps), events := d.2 }

/-- The raw `(sp, parm)` pair returned by a stack switch
(`struct switch_pair`), pointers modelled as natural numbers with `0`
for null. -/
structure switch_pair where
  sp : Ptr
  parm : Ptr
deriving DecidableEq, Repr

/-- `continuation<Signature>`: a typed wrapper holding a
`switch_pair pair`. -/
structure continuation where
  pair : switch_pair
deriving DecidableEq, Repr

namespace continuation

/-- `continuation::terminated()`: `return !pair.sp;` -/
def terminated (c : continuation) : Bool := c.pair.sp = 0

/-- `continuation::has_data()`: `return pair.parm;` (non-null test). -/
def has_data (c : continuation) : Bool := c.pair.parm ≠ 0

/-- `continuation::pilfer()`: move the raw pair out (`switch_pair
result = pair`), null both fields of `pair`, and `return result` —
given here as the returned pair together with the post-state of
`*this`. -/
def pilfer (c : continuation) : switch_pair × continuation :=
  (c.pair, { pair := { sp := 0, parm := 0 } })

/-- `continuation::~continuation()`: `assert(terminated());` — the
destructor's precondition. -/
def dtor_assertion (c : continuation) : Bool := terminated c

end continuation

namespace default_stack_allocator

/-- `default_stack_allocator::alignment = 16`. -/
def alignment : Nat := 16

/-- Outcome of the underlying `posix_memalign` call: success with a
block address, or `ENOMEM`.  (`EINVAL` is excluded by the code's
assertion: the alignment 16 is a power of two multiple of
`sizeof(void*)`.) -/
inductive MemalignRet where
  | ok (p : Ptr)
  | enomem
deriving DecidableEq, Repr

/-- `std::bad_alloc`, the exception raised on allocation failure. -/
inductive AllocError where
  | bad_alloc
deriving DecidableEq, Repr

/-- An aligned allocation request issued to `posix_memalign`:
`(alignment, size)`. -/
structure AllocRequest where
  align : Nat
  size : Nat
deriving DecidableEq, Repr

/-- `default_stack_allocator::allocate(size)`: call
`posix_memalign(&result, alignment, size)`; on `ENOMEM` throw
`std::bad_alloc`; otherwise return the block.  The first component
logs the requests issued. -/
def allocate (size : Nat) (mem : MemalignRet) :
    List AllocRequest × Except AllocError Ptr :=
  ([{ align := alignment, size := size }],
   match mem with
   | MemalignRet.ok p => Except.ok p
   | MemalignRet.enomem => Except.error AllocError.bad_alloc)

end default_stack_allocator

/-- Default of the `stack_size` parameter of `create_context`:
`size_t stack_size = 1024*1024`. -/
def default_stack_size : Nat := 1024 * 1024

/-- Allocation behaviour of
`create_context<Signature>(f, stack_size, alloc)` with the default
allocator: its first statement is
`void* stackp = alloc.allocate(stack_size);`, the only allocation it
performs; an exception thrown there propagates to the caller
unhandled.  The returned address stands for the continuation built on
that stack (trampoline startup is outside this allocation model). -/
def create_context (stack_size : Nat)
    (mem : default_stack_allocator.MemalignRet) :
    List default_stack_allocator.AllocRequest ×
      Except default_stack_allocator.AllocError Ptr :=
  default_stack_allocator.allocate stack_size mem

/-- Modelled from the spec: `promise<bool>` / `future<bool>` from
`future.hpp` (not part of the sources at hand).  A default-constructed
promise is unfulfilled; `set_value(true)` fulfils it; the future
obtained from it is ready exactly when the promise has been fulfilled.
Promises are identified by the order of their creation. -/
structure multiplexer where
  value : Option Nat
  listeners : List Nat
  nextId : Nat
  fulfilled : List Nat
deriving DecidableEq, Repr

namespace multiplexer

/-- `shared_state_multiplexer` freshly constructed from a pending
future: no stored value, no listeners yet. -/
def init : multiplexer :=
  { value := none, listeners := [], nextId := 0, fulfilled := [] }

/-- `shared_state_multiplexer::add_listener()`: `return lock(),
listeners.emplace_back(), listeners.back().get_future();` — append a
fresh (unfulfilled) promise to the deque and hand out its future,
unconditionally. -/
def add_listener (m : multiplexer) : Nat × multiplexer :=
  (m.nextId,
   { m with listeners := m.listeners ++ [m.nextId], nextId := m.nextId + 1 })

/-- `shared_state_multiplexer::signal(event_ptr other)`: store the
result state, exchange the listeners deque for an empty one, and call
`set_value(true)` on every promise that was queued. -/
def signal (m : multiplexer) (v : Nat) : multiplexer :=
  { m with
    value := some v
    listeners := []
    fulfilled := m.fulfilled ++ m.listeners }

/-- A future handed out by `add_listener` is ready exactly when its
promise has been fulfilled. -/
def future_ready (m : multiplexer) (id : Nat) : Prop := id ∈ m.fulfilled

instance (m : multiplexer) (id : Nat) : Decidable (future_ready m id) := by
  unfold future_ready; infer_instance

end multiplexer

/-! Helper lemmas (shared). -/

/-- Closed form of `try_wait`: the CAS has sequential semantics, and its
expected value is the word just loaded, so it succeeds whenever the
short-circuit test passed. -/
theorem try_wait_eq (w s : Ptr) :
    event.try_wait w s = if s = event.signaled then (false, s) else (true, w) := by
  unfold event.try_wait event.cas
  by_cases h : s = event.signaled <;> simp [h]

/-- Closed form of `dismiss_wait`: it fails exactly on the Signaled
sentinel and otherwise resets the state word to Empty. -/
theorem dismiss_wait_eq (w s : Ptr) :
    event.dismiss_wait w s
      = if s = event.signaled then (false, s) else (true, event.empty) := by
  by_cases hs : s = event.signaled
  · subst hs
    simp [event.dismiss_wait, event.signaled, noopAddr]
  · by_cases h0 : s = 0
    · subst h0
      simp [event.dismiss_wait, event.empty, hs]
    · simp [event.dismiss_wait, event.cas, h0, hs, event.empty]

/-- Interference with an empty flag list changes nothing. -/
theorem interfere_nil (es : event.Range) : interfere [] es = es := by
  cases es <;> rfl

/-- Interference on an empty range yields the empty range. -/
theorem interfere_nil_range (fs : List Bool) :
    interfere fs ([] : event.Range) = [] := by
  cases fs <;> rfl

/-- Dismissals can only succeed on events whose registration succeeded
and that no producer signaled in between: over a whole range, the
dismissed count is bounded by the waited count. -/
theorem dismiss_le_wait (w : Ptr) (fs : List Bool) (evs : event.Range) :
    (event.dismiss_wait_many w (interfere fs (event.wait_many w evs).2)).1
      ≤ (event.wait_many w evs).1.2 := by
  induction evs generalizing fs with
  | nil =>
    simp [event.wait_many, interfere_nil_range, event.dismiss_wait_many]
  | cons e rest ih =>
    cases e with
    | none =>
      cases fs with
      | nil =>
        have h := ih []
        rw [interfere_nil] at h
        rw [interfere_nil]
        simpa [event.wait_many, event.dismiss_wait_many, interfere_nil] using h
      | cons f fs2 =>
        have h := ih fs2
        simp only [event.wait_many, interfere, event.dismiss_wait_many]
        simpa [event.wait_many, event.dismiss_wait_many] using h
    | some s =>
      cases fs with
      | nil =>
        rw [interfere_nil]
        by_cases hs : s = event.signaled
        · subst hs
          have h := ih []
          rw [interfere_nil] at h
          simp [event.wait_many, event.dismiss_wait_many, try_wait_eq,
                dismiss_wait_eq]
          omega
        · by_cases hw : w = event.signaled
          · subst hw
            have h := ih []
            rw [interfere_nil] at h
            simp [event.wait_many, event.dismiss_wait_many, try_wait_eq,
                  dismiss_wait_eq, hs]
            omega
          · have h := ih []
            rw [interfere_nil] at h
            simp [event.wait_many, event.dismiss_wait_many, try_wait_eq,
                  dismiss_wait_eq, hs, hw]
            omega
      | cons f fs2 =>
        by_cases hs : s = event.signaled
        · subst hs
          have h := ih fs2
          cases f <;>
            · simp [event.wait_many, event.dismiss_wait_many, interfere,
                    event.signal, try_wait_eq, dismiss_wait_eq]
              omega
        · by_cases hw : w = event.signaled
          · subst hw
            have h := ih fs2
            cases f <;>
              · simp [event.wait_many, event.dismiss_wait_many, interfere,
                      event.signal, try_wait_eq, dismiss_wait_eq, hs]
                omega
          · have h := ih fs2
            cases f <;>
              · simp [event.wait_many, event.dismiss_wait_many, interfere,
                      event.signal, try_wait_eq, dismiss_wait_eq, hs, hw]
                omega

/-! Claim theorems. -/

/-- C1: `signal` transitions the event to Signaled; when the prior
state was Waited(w) it invokes `w->signal` exactly once, handing the
callback ownership of the event (`event_ptr(this)`); when the prior
state was Empty no callback fires, so the caller retains ownership of
the event, and the event still ends in Signaled. -/
theorem signal_spec (s : Ptr) :
    (event.signal s).newState = event.signaled ∧
    (event.isWaited s → (event.signal s).invoked = [s]) ∧
    (s = event.empty → (event.signal s).invoked = []) := by
  refine ⟨rfl, fun h => ?_, fun h => ?_⟩
  · simp [event.signal, h.1, event.empty] at h ⊢
    exact fun h0 => absurd h0 h.1
  · subst h; rfl

/-- Witness for C1 at a Waited event (waiter address 5) and at an
Empty event. -/
theorem signal_spec_witness :
    (event.signal 5).newState = event.signaled ∧
    (event.signal 5).invoked = [5] ∧
    (event.signal 0).invoked = [] :=
  ⟨(signal_spec 5).1, (signal_spec 5).2.1 (by decide), (signal_spec 0).2.2 rfl⟩

/-- C2 counterexample: the global `noop_waiter` is a perfectly
non-null waiter, yet `try_wait(&noop_waiter)` on an Empty event
returns true while installing the Signaled sentinel itself: the event
ends in a state the implementation classifies as Signaled, not
Waited(w) — observably, `dismiss_wait` then returns false even though
no signal ever occurred. -/
theorem try_wait_noop_cex :
    noopAddr ≠ event.empty ∧
    event.try_wait noopAddr event.empty = (true, event.signaled) ∧
    ¬ event.isWaited (event.try_wait noopAddr event.empty).2 ∧
    (event.dismiss_wait noopAddr
        (event.try_wait noopAddr event.empty).2).1 = false := by
  refine ⟨by decide, by decide, ?_, by decide⟩
  rw [show (event.try_wait noopAddr event.empty).2 = event.signaled from rfl]
  exact fun h => h.2 rfl

/-- C2 (amended): for every event not in the Waited state and every
non-null waiter w whose address is not the Signaled sentinel
(`&noop_waiter`), `try_wait(w)` returns true and puts the event into
the Waited(w) state when the state was Empty, and returns false
leaving the state unchanged when the state was Signaled. -/
theorem try_wait_spec (w s : Ptr) (hw : w ≠ event.empty)
    (hw2 : w ≠ event.signaled) :
    (s = event.empty →
      event.try_wait w s = (true, w) ∧
      event.isWaited (event.try_wait w s).2) ∧
    (s = event.signaled → event.try_wait w s = (false, s)) := by
  constructor
  · intro hs; subst hs
    have h1 : event.try_wait w event.empty = (true, w) := by
      rw [try_wait_eq]
      simp [event.empty, event.signaled, noopAddr]
    exact ⟨h1, by rw [h1]; exact ⟨hw, hw2⟩⟩
  · intro hs; subst hs
    rw [try_wait_eq]
    simp

/-- Witness for C2's amended theorem at waiter address 5, for an Empty
and for a Signaled event. -/
theorem try_wait_spec_witness :
    (event.try_wait 5 event.empty = (true, 5) ∧
      event.isWaited (event.try_wait 5 event.empty).2) ∧
    event.try_wait 5 event.signaled = (false, event.signaled) :=
  ⟨(try_wait_spec 5 event.empty (by decide) (by decide)).1 rfl,
   (try_wait_spec 5 event.signaled (by decide) (by decide)).2 rfl⟩

/-- C3: `dismiss_wait` returns true and resets the state to Empty when
the event is Waited, returns true leaving the state Empty when the
event is Empty, and returns false leaving the state Signaled when the
event is Signaled. -/
theorem dismiss_wait_spec (w s : Ptr) :
    (event.isWaited s → event.dismiss_wait w s = (true, event.empty)) ∧
    (s = event.empty → event.dismiss_wait w s = (true, event.empty)) ∧
    (s = event.signaled → event.dismiss_wait w s = (false, event.signaled)) := by
  refine ⟨fun h => ?_, fun h => ?_, fun h => ?_⟩
  · rw [dismiss_wait_eq]; simp [h.2]
  · subst h; rw [dismiss_wait_eq]; simp [event.empty, event.signaled, noopAddr]
  · subst h; rw [dismiss_wait_eq]; simp

/-- Witness for C3 at a Waited event (waiter address 7), an Empty
event and a Signaled event, with waiter argument 9. -/
theorem dismiss_wait_spec_witness :
    event.dismiss_wait 9 7 = (true, event.empty) ∧
    event.dismiss_wait 9 event.empty = (true, event.empty) ∧
    event.dismiss_wait 9 event.signaled = (false, event.signaled) :=
  ⟨(dismiss_wait_spec 9 7).1 (by decide),
   (dismiss_wait_spec 9 event.empty).2.1 rfl,
   (dismiss_wait_spec 9 event.signaled).2.2 rfl⟩

/-- C7: `wait(w)` calls `try_wait(w)`; when the event was already
Signaled, `try_wait` returns false and `wait` synchronously invokes
`w->signal(event_ptr(this))`, handing it ownership; otherwise (Empty)
`wait` returns with w installed in the state word and no callback
invoked. -/
theorem wait_spec (w s : Ptr) (_hw : w ≠ event.empty) :
    (s = event.signaled →
      (event.try_wait w s).1 = false ∧
      event.wait w s = { newState := s, invoked := [w] }) ∧
    (s = event.empty →
      (event.try_wait w s).1 = true ∧
      event.wait w s = { newState := w, invoked := [] }) := by
  constructor
  · intro hs; subst hs
    have h1 : event.try_wait w event.signaled = (false, event.signaled) := by
      rw [try_wait_eq]; simp
    exact ⟨by rw [h1], by simp [event.wait, h1]⟩
  · intro hs; subst hs
    have h1 : event.try_wait w event.empty = (true, w) := by
      rw [try_wait_eq]; simp [event.empty, event.signaled, noopAddr]
    exact ⟨by rw [h1], by simp [event.wait, h1]⟩

/-- Witness for C7 at waiter address 5, for a Signaled and for an
Empty event. -/
theorem wait_spec_witness :
    ((event.try_wait 5 event.signaled).1 = false ∧
      event.wait 5 event.signaled
        = { newState := event.signaled, invoked := [5] }) ∧
    ((event.try_wait 5 event.empty).1 = true ∧
      event.wait 5 event.empty = { newState := 5, invoked := [] }) :=
  ⟨(wait_spec 5 event.signaled (by decide)).1 rfl,
   (wait_spec 5 event.empty (by decide)).2 rfl⟩

/-- C6: `wait_many(w, begin, end)` calls `try_wait(w)` on each
non-null entry of the range (the updated states are exactly the
per-entry `try_wait` results) and the two returned counts sum to the
number of non-null entries. -/
theorem wait_many_spec (w : Ptr) (evs : event.Range) :
    (event.wait_many w evs).1.1 + (event.wait_many w evs).1.2
        = (evs.filter Option.isSome).length ∧
    (event.wait_many w evs).2
        = evs.map (Option.map fun s => (event.try_wait w s).2) := by
  induction evs with
  | nil => simp [event.wait_many]
  | cons e rest ih =>
    cases e with
    | none =>
      simp [event.wait_many, ih.1, ih.2]
    | some s =>
      cases h : (event.try_wait w s).1 <;>
        · simp [event.wait_many, h, ih.2, List.filter]
          omega

/-- C10: signaling an already-signaled event is benign: the exchange
returns the Signaled sentinel, which is the address of the global
`noop_waiter`; that waiter's callback calls `p.release()`, giving up
the `event_ptr` without destroying the event, so the event is not
freed and its state remains Signaled. -/
theorem signal_signaled_spec :
    event.signal event.signaled
      = { newState := event.signaled, invoked := [event.signaled] } ∧
    event.signaled = noopAddr ∧
    waiterAt event.signaled = some Waiter.noop ∧
    waiterDestroys Waiter.noop = some false := by
  refine ⟨?_, rfl, rfl, rfl⟩
  simp [event.signal, event.signaled, noopAddr]

/-- C9: `pilfer()` moves out the stored `(sp, parm)` pair and leaves
the continuation holding the null pair, after which `terminated()` is
true, `has_data()` is false, and the destructor's
`assert(terminated())` holds. -/
theorem pilfer_spec (c : continuation) :
    (continuation.pilfer c).1 = c.pair ∧
    (continuation.pilfer c).2.pair = { sp := 0, parm := 0 } ∧
    continuation.terminated (continuation.pilfer c).2 = true ∧
    continuation.has_data (continuation.pilfer c).2 = false ∧
    continuation.dtor_assertion (continuation.pilfer c).2 = true :=
  ⟨rfl, rfl, rfl, rfl, rfl⟩

/-- C8: `create_context` with the default stack size issues exactly
one stack allocation, of 1024*1024 bytes with 16-byte alignment, and
when `posix_memalign` reports `ENOMEM` the resulting `std::bad_alloc`
propagates to the caller of `create_context`. -/
theorem create_context_spec (mem : default_stack_allocator.MemalignRet) :
    (create_context default_stack_size mem).1
      = [{ align := default_stack_allocator.alignment,
           size := default_stack_size }] ∧
    default_stack_allocator.alignment = 16 ∧
    default_stack_size = 1024 * 1024 ∧
    (mem = default_stack_allocator.MemalignRet.enomem →
      (create_context default_stack_size mem).2
        = Except.error default_stack_allocator.AllocError.bad_alloc) := by
  refine ⟨?_, rfl, rfl, fun h => ?_⟩
  · cases mem <;> rfl
  · subst h; rfl

/-- Witness for C8 at the failing allocation outcome `ENOMEM`. -/
theorem create_context_spec_witness :
    (create_context default_stack_size
        default_stack_allocator.MemalignRet.enomem).1
      = [{ align := default_stack_allocator.alignment,
           size := default_stack_size }] ∧
    (create_context default_stack_size
        default_stack_allocator.MemalignRet.enomem).2
      = Except.error default_stack_allocator.AllocError.bad_alloc :=
  ⟨(create_context_spec default_stack_allocator.MemalignRet.enomem).1,
   (create_context_spec default_stack_allocator.MemalignRet.enomem).2.2.2 rfl⟩

/-- C5: `wait_any_adl` first registers the waiter on every event via
`wait_many`; it blocks on the latch exactly once (one `latch.wait()`
before the dismissal pass) precisely when the registration pass
observed zero already-signaled events; it then dismisses all events
via `dismiss_wait_many`, and the drain phase waits for exactly
`waited - dismissed` further signals, reduced by one when it blocked
(a `pending` of zero issuing no latch call).  Consequently the total
number of latch signals consumed over the whole call is
`waited - dismissed`.  The hypothesis `hwake` states that when the
call blocked, the wake-up signal it consumed came from an event whose
dismissal therefore fails. -/
theorem wait_any_adl_spec (latch : Ptr) (evs : event.Range) (fs : List Bool)
    (sig wai dis : Nat) (ev1 ev2 : event.Range)
    (h1 : event.wait_many latch evs = ((sig, wai), ev1))
    (h2 : event.dismiss_wait_many latch (interfere fs ev1) = (dis, ev2))
    (hwake : sig = 0 → dis < wai) :
    (wait_any_adl latch evs fs).trace
      = LatchOp.reset ::
        ((if sig = 0 then [LatchOp.wait 1] else []) ++
         (if wai - dis - (if sig = 0 then 1 else 0) ≠ 0
          then [LatchOp.wait (wai - dis - (if sig = 0 then 1 else 0))]
          else [])) ∧
    dis ≤ wai ∧
    latchConsumed (wait_any_adl latch evs fs).trace = wai - dis := by
  have hle : dis ≤ wai := by
    have h := dismiss_le_wait latch fs evs
    rw [h1] at h
    simp only at h
    rw [h2] at h
    exact h
  have htrace : (wait_any_adl latch evs fs).trace
      = LatchOp.reset ::
        ((if sig = 0 then [LatchOp.wait 1] else []) ++
         (if wai - dis - (if sig = 0 then 1 else 0) ≠ 0
          then [LatchOp.wait (wai - dis - (if sig = 0 then 1 else 0))]
          else [])) := by
    simp only [wait_any_adl, h1, h2]
  refine ⟨htrace, hle, ?_⟩
  rw [htrace]
  split_ifs with h1 h2 h3
  · have hlt := hwake h1
    simp [latchConsumed]
    omega
  · have hlt := hwake h1
    simp [latchConsumed] at h2 ⊢
    omega
  · simp [latchConsumed]
  · simp [latchConsumed] at h3 ⊢
    omega

/-- Witness for C5: three events, two Empty and one null entry, all
registered; the producer signals the first event while the consumer
is blocked on the latch.  The call blocks once, dismisses the second
event, and drains no further signal: it consumes one latch signal in
total, which equals waited minus dismissed. -/
theorem wait_any_adl_spec_witness :
    (wait_any_adl 4 [some 0, some 0, none] [true, false]).trace
      = [LatchOp.reset, LatchOp.wait 1] ∧
    (1 : Nat) ≤ 2 ∧
    latchConsumed (wait_any_adl 4 [some 0, some 0, none] [true, false]).trace
      = 2 - 1 := by
  have h := wait_any_adl_spec 4 [some 0, some 0, none] [true, false]
    0 2 1 [some 4, some 4, none] [some event.signaled, some event.empty, none]
    (by decide) (by decide) (fun _ => by decide)
  exact ⟨h.1.trans (by decide), h.2.1, h.2.2⟩

/-- C4 at the failing input: one listener registers before the
multiplexer is signaled and is fulfilled by `signal`; a second
listener registering after the signal (as the copy constructor of
`shared_future` does) receives a future that is not fulfilled —
`add_listener` appended its promise to the already-drained deque and
no code path sets its value. -/
theorem add_listener_after_signal_cex :
    multiplexer.future_ready
      (multiplexer.signal (multiplexer.add_listener multiplexer.init).2 7)
      (multiplexer.add_listener multiplexer.init).1 ∧
    ¬ multiplexer.future_ready
      (multiplexer.add_listener
        (multiplexer.signal (multiplexer.add_listener multiplexer.init).2 7)).2
      (multiplexer.add_listener
        (multiplexer.signal (multiplexer.add_listener multiplexer.init).2 7)).1 := by
  constructor
  · show (0 : Nat) ∈ [0]
    simp
  · show ¬ (1 : Nat) ∈ [0]
    simp

end gpd
